import Mathlib

/-!
Verification development for the ai-cli-server request-admission pipeline.

The definitions below are a shallow embedding of the Go source:
  internal/auth            (API-key generation, hashing, format validation)
  internal/api/middleware  (Authenticate, RateLimit, getLimiter)
  internal/api/handlers    (HandleChatCompletion, messagesToPrompt, calculateCost)
  internal/database        (IsModelAllowed, GetUsageStats, usage logs)
  internal/agents          (EstimateTokens, copilot Execute post-processing)

Machine integers are modelled as Nat/Int with explicit reductions modulo
2^32 where the Go code wraps (uint32 arithmetic inside SHA-256); money is
modelled as Rat (the Go code uses float64, but no claim here depends on
floating-point rounding).
-/

namespace AiCliServer

/-! ## Bytes and UTF-8

Go strings are byte sequences; `len(s)` and `s[:n]` operate on UTF-8 bytes.
`utf8Bytes` is the standard UTF-8 encoding of a scalar value, and
`strBytes` is the byte sequence of a Lean string, matching Go `[]byte(s)`.
-/

def utf8Bytes (c : Char) : List Nat :=
  let n := c.toNat
  if n < 0x80 then [n]
  else if n < 0x800 then
    [0xC0 ||| (n >>> 6), 0x80 ||| (n &&& 0x3F)]
  else if n < 0x10000 then
    [0xE0 ||| (n >>> 12), 0x80 ||| ((n >>> 6) &&& 0x3F), 0x80 ||| (n &&& 0x3F)]
  else
    [0xF0 ||| (n >>> 18), 0x80 ||| ((n >>> 12) &&& 0x3F),
     0x80 ||| ((n >>> 6) &&& 0x3F), 0x80 ||| (n &&& 0x3F)]

def strBytes (s : String) : List Nat :=
  s.data.foldr (fun c acc => utf8Bytes c ++ acc) []

/-! ## SHA-256 (crypto/sha256)

`HashAPIKey` in internal/auth/apikey.go is `sha256.Sum256([]byte(key))`
followed by `base64.URLEncoding.EncodeToString`.  The FIPS 180-4
compression function is embedded below on Nat with explicit `% 2^32`
wrapping, exactly as the uint32 arithmetic of Go crypto/sha256.
-/

def w32 (n : Nat) : Nat := n % 4294967296

def rotr32 (n x : Nat) : Nat := w32 ((x >>> n) ||| (x <<< (32 - n)))

def shaCh (x y z : Nat) : Nat := (x &&& y) ^^^ ((x ^^^ 0xFFFFFFFF) &&& z)

def shaMaj (x y z : Nat) : Nat := (x &&& y) ^^^ (x &&& z) ^^^ (y &&& z)

def bigSigma0 (x : Nat) : Nat := rotr32 2 x ^^^ rotr32 13 x ^^^ rotr32 22 x

def bigSigma1 (x : Nat) : Nat := rotr32 6 x ^^^ rotr32 11 x ^^^ rotr32 25 x

def smallSigma0 (x : Nat) : Nat := rotr32 7 x ^^^ rotr32 18 x ^^^ (x >>> 3)

def smallSigma1 (x : Nat) : Nat := rotr32 17 x ^^^ rotr32 19 x ^^^ (x >>> 10)

/-- The 64 SHA-256 round constants of FIPS 180-4 section 4.2.2, written
in decimal. -/
def K256 : List Nat :=
  [1116352408, 1899447441, 3049323471, 3921009573, 961987163, 1508970993,
   2453635748, 2870763221, 3624381080, 310598401, 607225278, 1426881987,
   1925078388, 2162078206, 2614888103, 3248222580, 3835390401, 4022224774,
   264347078, 604807628, 770255983, 1249150122, 1555081692, 1996064986,
   2554220882, 2821834349, 2952996808, 3210313671, 3336571891, 3584528711,
   113926993, 338241895, 666307205, 773529912, 1294757372, 1396182291,
   1695183700, 1986661051, 2177026350, 2456956037, 2730485921, 2820302411,
   3259730800, 3345764771, 3516065817, 3600352804, 4094571909, 275423344,
   430227734, 506948616, 659060556, 883997877, 958139571, 1322822218,
   1537002063, 1747873779, 1955562222, 2024104815, 2227730452, 2361852424,
   2428436474, 2756734187, 3204031479, 3329325298]

structure Hash8 where
  a : Nat
  b : Nat
  c : Nat
  d : Nat
  e : Nat
  f : Nat
  g : Nat
  h : Nat
deriving Repr, DecidableEq

/-- The eight SHA-256 initial hash values of FIPS 180-4 section 5.3.3,
written in decimal. -/
def initH : Hash8 :=
  { a := 1779033703, b := 3144134277, c := 1013904242, d := 2773480762,
    e := 1359893119, f := 2600822924, g := 528734635, h := 1541459225 }

/-- Big-endian fixed-width byte serialization of a natural number. -/
def natToBytesBE : Nat → Nat → List Nat
  | 0, _ => []
  | k + 1, n => natToBytesBE k (n / 256) ++ [n % 256]

/-- FIPS 180-4 padding: append 0x80, zero bytes to 56 mod 64, then the
bit length as a 64-bit big-endian integer. -/
def padMessage (msg : List Nat) : List Nat :=
  let len := msg.length
  let zeros := (119 - len % 64) % 64
  msg ++ [0x80] ++ List.replicate zeros 0 ++ natToBytesBE 8 (8 * len)

def bytesToWords : List Nat → List Nat
  | b0 :: b1 :: b2 :: b3 :: rest =>
      (((b0 * 256 + b1) * 256 + b2) * 256 + b3) :: bytesToWords rest
  | _ => []

def scheduleStep (w : List Nat) : List Nat :=
  let t := w.length
  w ++ [w32 (smallSigma1 (w.getD (t - 2) 0) + w.getD (t - 7) 0 +
             smallSigma0 (w.getD (t - 15) 0) + w.getD (t - 16) 0)]

def buildSchedule (w : List Nat) : Nat → List Nat
  | 0 => w
  | k + 1 => scheduleStep (buildSchedule w k)

def messageSchedule (block : List Nat) : List Nat :=
  buildSchedule (bytesToWords block) 48

def compressStep (st : Hash8) (kw : Nat × Nat) : Hash8 :=
  let t1 := w32 (st.h + bigSigma1 st.e + shaCh st.e st.f st.g + kw.1 + kw.2)
  let t2 := w32 (bigSigma0 st.a + shaMaj st.a st.b st.c)
  { a := w32 (t1 + t2), b := st.a, c := st.b, d := st.c,
    e := w32 (st.d + t1), f := st.e, g := st.f, h := st.g }

def processBlock (st : Hash8) (block : List Nat) : Hash8 :=
  let res := (K256.zip (messageSchedule block)).foldl compressStep st
  { a := w32 (st.a + res.a), b := w32 (st.b + res.b), c := w32 (st.c + res.c),
    d := w32 (st.d + res.d), e := w32 (st.e + res.e), f := w32 (st.f + res.f),
    g := w32 (st.g + res.g), h := w32 (st.h + res.h) }

def chunks64 (l : List Nat) : List (List Nat) :=
  if h : l = [] then []
  else l.take 64 :: chunks64 (l.drop 64)
termination_by l.length
decreasing_by
  simp only [List.length_drop]
  exact Nat.sub_lt (List.length_pos.mpr h) (by decide)

def sha256state (msg : List Nat) : Hash8 :=
  (chunks64 (padMessage msg)).foldl processBlock initH

/-- The 256-bit digest as one natural number (word `a` most significant),
so that its 32-byte big-endian serialization is the standard digest. -/
def digestNat (st : Hash8) : Nat :=
  ((((((st.a * 4294967296 + st.b) * 4294967296 + st.c) * 4294967296 + st.d) * 4294967296 +
     st.e) * 4294967296 + st.f) * 4294967296 + st.g) * 4294967296 + st.h

def sha256 (msg : List Nat) : List Nat :=
  natToBytesBE 32 (digestNat (sha256state msg))

/-! ## Base64 URL encoding (encoding/base64 URLEncoding, with padding) -/

def b64Char (n : Nat) : Char :=
  "ABCDEFGHIJKLMNOPQRSTUVWXYZabcdefghijklmnopqrstuvwxyz0123456789-_".data.getD n 'A'

def base64urlEncode : List Nat → String
  | [] => ""
  | [b1] => String.mk [b64Char (b1 / 4), b64Char (b1 % 4 * 16)] ++ "=="
  | [b1, b2] =>
      String.mk [b64Char (b1 / 4), b64Char (b1 % 4 * 16 + b2 / 16),
                 b64Char (b2 % 16 * 4)] ++ "="
  | b1 :: b2 :: b3 :: rest =>
      String.mk [b64Char (b1 / 4), b64Char (b1 % 4 * 16 + b2 / 16),
                 b64Char (b2 % 16 * 4 + b3 / 64), b64Char (b3 % 64)] ++
      base64urlEncode rest

/-! ## Credential codec (internal/auth/apikey.go) -/

def APIKeyPrefix : String := "aics_"

/-- HashAPIKey creates a SHA-256 hash of an API key for storage
(Go: base64.URLEncoding.EncodeToString of sha256.Sum256 of the key bytes). -/
def HashAPIKey (key : String) : String :=
  base64urlEncode (sha256 (strBytes key))

/-- ValidateAPIKeyFormat checks if an API key has the correct format.
Go compares the first len(APIKeyPrefix) BYTES of the key after a length
check, so the embedding works on the UTF-8 byte sequence. -/
def ValidateAPIKeyFormat (key : String) : Bool :=
  let bs := strBytes key
  let pbs := strBytes APIKeyPrefix
  if bs.length < pbs.length then false
  else bs.take pbs.length == pbs

/-! ## JSON string arrays (encoding/json Unmarshal into a Go []string)

`IsModelAllowed` unmarshals the client's stored `allowed_models` column
into a `[]string` and returns false when unmarshalling errors.  The
parser below accepts exactly a JSON array whose elements are all strings
(whitespace, basic escape sequences); any other document (objects,
numbers, bare words, trailing garbage) fails, matching the error result
of `json.Unmarshal` into `[]string`.  (`\u` hex escapes are outside the
modelled subset; no claim exercises them.)
-/

def isJSONSpace (c : Char) : Bool :=
  c == ' ' || c == '\t' || c == '\n' || c == '\r'

def skipSpace : List Char → List Char
  | [] => []
  | c :: rest => if isJSONSpace c then skipSpace rest else c :: rest

/-- Parse the body of a JSON string literal after its opening quote;
returns the decoded characters and the input after the closing quote. -/
def parseStringBody : List Char → Option (List Char × List Char)
  | [] => none
  | c :: rest =>
    if c == '"' then some ([], rest)
    else if c == '\\' then
      match rest with
      | [] => none
      | e :: rest2 =>
        let dec : Option Char :=
          if e == '"' then some '"'
          else if e == '\\' then some '\\'
          else if e == '/' then some '/'
          else if e == 'b' then some (Char.ofNat 8)
          else if e == 'f' then some (Char.ofNat 12)
          else if e == 'n' then some '\n'
          else if e == 'r' then some '\r'
          else if e == 't' then some '\t'
          else none
        match dec with
        | none => none
        | some d =>
          match parseStringBody rest2 with
          | none => none
          | some (s, rem) => some (d :: s, rem)
    else
      match parseStringBody rest with
      | none => none
      | some (s, rem) => some (c :: s, rem)

/-- Parse one or more comma-separated JSON strings followed by the
closing bracket.  `fuel` bounds recursion depth; callers pass the input
length, which the element list can never exceed. -/
def parseElems : Nat → List Char → Option (List String × List Char)
  | 0, _ => none
  | fuel + 1, l =>
    match skipSpace l with
    | '"' :: rest =>
      match parseStringBody rest with
      | none => none
      | some (s, rem) =>
        match skipSpace rem with
        | ',' :: rest2 =>
          match parseElems fuel rest2 with
          | none => none
          | some (ss, rem2) => some (String.mk s :: ss, rem2)
        | ']' :: rest2 => some ([String.mk s], rest2)
        | _ => none
    | _ => none

def parseJSONStringArray (s : String) : Option (List String) :=
  match skipSpace s.data with
  | '[' :: rest =>
    match skipSpace rest with
    | ']' :: rest2 => if skipSpace rest2 == [] then some [] else none
    | _ =>
      match parseElems (s.data.length + 1) rest with
      | none => none
      | some (ss, rem) => if skipSpace rem == [] then some ss else none
  | _ => none

/-! ## Data model (internal/database/models/models.go)

Timestamps are modelled as Int (Unix-style instants); cost (Go float64)
as Rat; request/response latency fields are carried but not modelled as
wall-clock time.
-/

structure Client where
  id : Int
  name : String
  apiKeyHash : String
  provider : String
  allowedModels : String
  defaultModel : String
  rateLimitPerMinute : Nat
  expiresAt : Option Int
  isActive : Bool
deriving Repr, DecidableEq

structure UsageLog where
  id : Int
  clientID : Int
  sessionID : Option String
  timestamp : Int
  provider : String
  model : String
  prompt : Option String
  promptTokens : Int
  completionTokens : Int
  totalTokens : Int
  cost : Rat
  responseTimeMs : Int
  responseStatus : Int
  errorMessage : Option String
deriving Repr, DecidableEq

structure UsageStats where
  totalRequests : Nat
  totalTokens : Int
  totalCost : Rat
  byProvider : List (String × Nat)
  byModel : List (String × Nat)
deriving Repr, DecidableEq

/-- IsModelAllowed (internal/database/clients.go): unmarshal the stored
JSON array; on error return false; otherwise scan for a verbatim match
or the wildcard. -/
def IsModelAllowed (client : Client) (model : String) : Bool :=
  match parseJSONStringArray client.allowedModels with
  | none => false
  | some allowedModels => allowedModels.any (fun am => am == model || am == "*")

/-! ## Usage ledger queries (internal/database/usage.go)

All four statements of GetUsageStats share the same WHERE clause:
client_id = ? AND (timestamp >= start?) AND (timestamp <= end?).
GROUP BY over a column is modelled as one count per distinct key.
-/

def matchesFilter (clientID : Int) (startTime endTime : Option Int) (l : UsageLog) : Bool :=
  l.clientID == clientID &&
  (match startTime with | none => true | some t => t ≤ l.timestamp) &&
  (match endTime with | none => true | some t => l.timestamp ≤ t)

def filteredLogs (logs : List UsageLog) (clientID : Int) (startTime endTime : Option Int) :
    List UsageLog :=
  logs.filter (matchesFilter clientID startTime endTime)

/-- SELECT key, COUNT(*) ... GROUP BY key over a list of key occurrences. -/
def groupCount (keys : List String) : List (String × Nat) :=
  keys.dedup.map (fun k => (k, keys.count k))

def GetUsageStats (logs : List UsageLog) (clientID : Int) (startTime endTime : Option Int) :
    UsageStats :=
  let rows := filteredLogs logs clientID startTime endTime
  { totalRequests := rows.length
  , totalTokens := (rows.map (fun r => r.totalTokens)).sum
  , totalCost := (rows.map (fun r => r.cost)).sum
  , byProvider := groupCount (rows.map (fun r => r.provider))
  , byModel := groupCount (rows.map (fun r => r.model)) }

/-! ## Identity resolution (middleware Authenticate, after header parsing)

GetClientByAPIKeyHash is a point read keyed by the fingerprint; the raw
key is used only for the shape check and to compute the fingerprint.
`now` stands for time.Now() in the expiry comparison.
-/

inductive AuthResult where
  | invalidKeyFormat
  | unknownKey
  | inactive
  | expired
  | authenticated (c : Client)
deriving Repr, DecidableEq

def GetClientByAPIKeyHash (db : List Client) (keyHash : String) : Option Client :=
  db.find? (fun c => c.apiKeyHash == keyHash)

/-- Core of Authenticate given the bearer token: format check, then a
lookup by the key's SHA-256 fingerprint, then activation and expiry. -/
def authenticateKey (db : List Client) (now : Int) (apiKey : String) : AuthResult :=
  if !ValidateAPIKeyFormat apiKey then .invalidKeyFormat
  else
    match GetClientByAPIKeyHash db (HashAPIKey apiKey) with
    | none => .unknownKey
    | some client =>
      if !client.isActive then .inactive
      else
        match client.expiresAt with
        | some t => if t < now then .expired else .authenticated client
        | none => .authenticated client

/-- The same decision procedure phrased over the only two values that
`authenticateKey` derives from the presented secret: the shape-check
bit and the fingerprint. -/
def authByFingerprint (db : List Client) (now : Int) (formatOk : Bool) (fp : String) :
    AuthResult :=
  if !formatOk then .invalidKeyFormat
  else
    match GetClientByAPIKeyHash db fp with
    | none => .unknownKey
    | some client =>
      if !client.isActive then .inactive
      else
        match client.expiresAt with
        | some t => if t < now then .expired else .authenticated client
        | none => .authenticated client

/-! ## Rate limiter (middleware getLimiter / RateLimit)

`getLimiter` builds `rate.NewLimiter(rate.Limit(ratePerMinute/60.0),
ratePerMinute)` from golang.org/x/time/rate.  That library documents "A
zero Limit allows no events": when the limit is 0, Allow draws from the
(never-refilled) burst, and otherwise tokens refill at the limit rate up
to the burst.  The model below captures Allow for calls at a single
instant — no time elapses between requests, so no refill occurs; the
first call sees a full bucket of `burst` tokens.
-/

structure Limiter where
  limitIsZero : Bool
  burst : Nat
  tokens : Nat
deriving Repr, DecidableEq

def newLimiter (ratePerMinute : Nat) : Limiter :=
  { limitIsZero := ratePerMinute == 0, burst := ratePerMinute, tokens := ratePerMinute }

def Limiter.allow (l : Limiter) : Bool × Limiter :=
  if l.limitIsZero then
    if 1 ≤ l.burst then (true, { l with burst := l.burst - 1 }) else (false, l)
  else
    if 1 ≤ l.tokens then (true, { l with tokens := l.tokens - 1 }) else (false, l)

/-! ## Token estimation and provider execution (internal/agents)

EstimateTokens is `len(text) / 4` — Go `len` counts UTF-8 bytes.
`copilotExecute` models the tail of copilot Execute after the external
process returned output: content is the raw combined output, prompt and
completion token estimates are computed independently, and the total is
their sum.
-/

def EstimateTokens (text : String) : Nat :=
  (strBytes text).length / 4

structure ExecRequest where
  prompt : String
  model : String
deriving Repr, DecidableEq

structure ExecResponse where
  content : String
  model : String
  promptTokens : Int
  completionTokens : Int
  totalTokens : Int
  sessionID : String
deriving Repr, DecidableEq

def copilotExecute (req : ExecRequest) (rawOutput : String) : ExecResponse :=
  let content := rawOutput
  let promptTokens : Int := EstimateTokens req.prompt
  let completionTokens : Int := EstimateTokens content
  { content := content
  , model := req.model
  , promptTokens := promptTokens
  , completionTokens := completionTokens
  , totalTokens := promptTokens + completionTokens
  , sessionID := "" }

/-! ## Chat completion handler (internal/api/handlers/chat.go) -/

structure Message where
  role : String
  content : String
deriving Repr, DecidableEq

structure ChatRequest where
  model : String
  messages : List Message
deriving Repr, DecidableEq

/-- messagesToPrompt: fold over the messages, appending content plus a
newline for each message whose role is "user". -/
def messagesToPrompt (messages : List Message) : String :=
  messages.foldl
    (fun prompt msg => if msg.role == "user" then prompt ++ msg.content ++ "\n" else prompt)
    ""

/-- calculateCost: static per-1000-token price with a default for models
absent from the table (Go float64 modelled as Rat). -/
def calculateCost (model : String) (tokens : Int) : Rat :=
  let pricePerThousand : Rat :=
    if model == "gpt-5" then 5 / 100
    else if model == "gpt-4o" then 3 / 100
    else if model == "claude-sonnet-4.5" then 3 / 100
    else if model == "claude-sonnet-3.5" then 2 / 100
    else if model == "gpt-4" then 3 / 100
    else if model == "o1-preview" then 10 / 100
    else if model == "o1-mini" then 5 / 100
    else 1 / 100
  (tokens : Rat) / 1000 * pricePerThousand

/-- One registered provider as the handler sees it: name, availability
probe result, and the result of GetSupportedModels. -/
structure ProviderModel where
  name : String
  available : Bool
  supportedModels : List String
deriving Repr, DecidableEq

inductive ChatOutcome where
  | ok (id : String) (model : String) (content : String)
       (promptTokens completionTokens totalTokens : Int) (cost : Rat)
  | badRequest (msg : String)
  | providerUnavailable (msg : String)
  | modelNotAllowed (msg : String)
  | execFailed (msg : String)
  | rateLimited
deriving Repr, DecidableEq

/-- Model fallback of HandleChatCompletion: request model, else the
client default, else the provider's first supported model, else empty. -/
def resolveModel (providers : List ProviderModel) (client : Client) (reqModel : String) :
    String :=
  if reqModel == "" then
    if client.defaultModel != "" then client.defaultModel
    else
      match providers.find? (fun p => p.name == client.provider) with
      | some p => p.supportedModels.headD ""
      | none => ""
  else reqModel

structure HandlerResult where
  outcome : ChatOutcome
  ledger : List UsageLog
  attempted : List UsageLog
deriving Repr, DecidableEq

/-- HandleChatCompletion after authentication and rate admission.
`exec` is the outcome of provider.Execute (an external process);
`insertOk` is whether the usage-ledger INSERT succeeds, `nextID` the
rowid it would assign; `now` stands for time.Now().  `attempted` lists
the CreateUsageLog calls the handler makes (the Go code ignores their
error), `ledger` is the stored table after those calls. -/
def handleChat (providers : List ProviderModel) (client : Client) (req : ChatRequest)
    (exec : Except String ExecResponse) (insertOk : Bool) (now : Int) (nextID : Int)
    (ledger : List UsageLog) : HandlerResult :=
  let model := resolveModel providers client req.model
  if model == "" then
    { outcome := .badRequest "model is required (no default configured)"
    , ledger := ledger, attempted := [] }
  else
    match providers.find? (fun p => p.name == client.provider) with
    | none =>
      { outcome := .badRequest ("unknown provider: " ++ client.provider)
      , ledger := ledger, attempted := [] }
    | some p =>
      if !p.available then
        { outcome := .providerUnavailable ("provider " ++ client.provider ++ " is not available")
        , ledger := ledger, attempted := [] }
      else if !IsModelAllowed client model && !IsModelAllowed client "*" then
        { outcome := .modelNotAllowed ("model " ++ model ++ " is not allowed for this client")
        , ledger := ledger, attempted := [] }
      else
        let prompt := messagesToPrompt req.messages
        match exec with
        | .error msg =>
          let entry : UsageLog :=
            { id := 0, clientID := client.id, sessionID := none, timestamp := now
            , provider := client.provider, model := model, prompt := some prompt
            , promptTokens := 0, completionTokens := 0, totalTokens := 0, cost := 0
            , responseTimeMs := 0, responseStatus := 500, errorMessage := some msg }
          { outcome := .execFailed ("CLI execution failed: " ++ msg)
          , ledger := if insertOk then ledger ++ [{ entry with id := nextID }] else ledger
          , attempted := [entry] }
        | .ok resp =>
          let cost := calculateCost model resp.totalTokens
          let entry : UsageLog :=
            { id := 0, clientID := client.id, sessionID := some resp.sessionID, timestamp := now
            , provider := client.provider, model := resp.model, prompt := some prompt
            , promptTokens := resp.promptTokens, completionTokens := resp.completionTokens
            , totalTokens := resp.totalTokens, cost := cost
            , responseTimeMs := 0, responseStatus := 200, errorMessage := none }
          let loggedID : Int := if insertOk then nextID else 0
          { outcome := .ok ("chatcmpl-" ++ toString loggedID) resp.model resp.content
              resp.promptTokens resp.completionTokens resp.totalTokens cost
          , ledger := if insertOk then ledger ++ [{ entry with id := nextID }] else ledger
          , attempted := [entry] }

/-! ## Per-request pipeline: RateLimit middleware then the handler -/

structure GatewayState where
  limiter : Limiter
  ledger : List UsageLog
  nextID : Int
deriving Repr, DecidableEq

def initState (client : Client) : GatewayState :=
  { limiter := newLimiter client.rateLimitPerMinute, ledger := [], nextID := 1 }

/-- RateLimit middleware followed by HandleChatCompletion: a request
rejected by the limiter is answered 429 and never reaches the handler
(so no ledger write); an admitted request consumed one token even if
the handler later rejects it. -/
def processChatRequest (providers : List ProviderModel) (client : Client) (req : ChatRequest)
    (exec : Except String ExecResponse) (insertOk : Bool) (now : Int) (st : GatewayState) :
    ChatOutcome × GatewayState :=
  let step := st.limiter.allow
  if step.1 then
    let r := handleChat providers client req exec insertOk now st.nextID st.ledger
    (r.outcome,
     { limiter := step.2, ledger := r.ledger
     , nextID := if st.ledger.length < r.ledger.length then st.nextID + 1 else st.nextID })
  else
    (ChatOutcome.rateLimited, { st with limiter := step.2 })

/-- Run an immediate sequence of requests (each given its Execute
outcome) through the pipeline with a healthy ledger store. -/
def processRequests (providers : List ProviderModel) (client : Client)
    (reqs : List (ChatRequest × Except String ExecResponse)) (now : Int)
    (st : GatewayState) : List ChatOutcome × GatewayState :=
  match reqs with
  | [] => ([], st)
  | (req, exec) :: rest =>
    let out := processChatRequest providers client req exec true now st
    let outs := processRequests providers client rest now out.2
    (out.1 :: outs.1, outs.2)

def ChatOutcome.isSuccess : ChatOutcome → Bool
  | .ok _ _ _ _ _ _ _ => true
  | _ => false

def ChatOutcome.isModelNotAllowed : ChatOutcome → Bool
  | .modelNotAllowed _ => true
  | _ => false

end AiCliServer

namespace AiCliServer

/-! ## Helper lemmas -/

/-- Summing the per-key counts of a GROUP BY result recovers the number
of key occurrences. -/
theorem groupCount_sum (keys : List String) :
    ((groupCount keys).map Prod.snd).sum = keys.length := by
  unfold groupCount
  rw [List.map_map]
  have hcomp : (Prod.snd ∘ fun k => (k, keys.count k)) = fun k => keys.count k := rfl
  rw [hcomp]
  exact List.sum_map_count_dedup_eq_length keys

/-- ASCII characters encode to a single UTF-8 byte. -/
theorem strBytes_length_of_ascii (l : List Char) (h : ∀ c ∈ l, c.toNat < 128) :
    (l.foldr (fun c acc => utf8Bytes c ++ acc) []).length = l.length := by
  induction l with
  | nil => rfl
  | cons c rest ih =>
    have hc : c.toNat < 128 := h c (List.mem_cons_self c rest)
    have hrest : ∀ x ∈ rest, x.toNat < 128 := fun x hx => h x (List.mem_cons_of_mem c hx)
    have henc : utf8Bytes c = [c.toNat] := by
      unfold utf8Bytes
      have : c.toNat < 0x80 := hc
      simp [this]
    simp [List.foldr_cons, henc, ih hrest]

/-- A request that reaches the model gate and is not allowed is answered
ModelNotAllowed without touching the ledger and without consulting the
Execute outcome. -/
theorem handleChat_modelNotAllowed (providers : List ProviderModel) (client : Client)
    (req : ChatRequest) (ex : Except String ExecResponse) (insertOk : Bool) (now nextID : Int)
    (ledger : List UsageLog) (p : ProviderModel)
    (hm : resolveModel providers client req.model ≠ "")
    (hp : providers.find? (fun q => q.name == client.provider) = some p)
    (hav : p.available = true)
    (hna : IsModelAllowed client (resolveModel providers client req.model) = false)
    (hnw : IsModelAllowed client "*" = false) :
    handleChat providers client req ex insertOk now nextID ledger =
      { outcome := ChatOutcome.modelNotAllowed
          ("model " ++ resolveModel providers client req.model ++ " is not allowed for this client")
      , ledger := ledger, attempted := [] } := by
  unfold handleChat
  have hm2 : (resolveModel providers client req.model == "") = false :=
    beq_eq_false_iff_ne.mpr hm
  simp only [hm2, Bool.false_eq_true, if_false, hp, hav, hna, hnw, Bool.not_false,
    Bool.not_true, Bool.and_self, Bool.true_and, Bool.and_true, if_true]

/-- A request that passes the model gate but whose Execute fails writes
exactly one error-status entry (tokens and cost at zero) and reports the
execution failure. -/
theorem handleChat_execError (providers : List ProviderModel) (client : Client)
    (req : ChatRequest) (msg : String) (insertOk : Bool) (now nextID : Int)
    (ledger : List UsageLog) (p : ProviderModel)
    (hm : resolveModel providers client req.model ≠ "")
    (hp : providers.find? (fun q => q.name == client.provider) = some p)
    (hav : p.available = true)
    (hal : (IsModelAllowed client (resolveModel providers client req.model) ||
            IsModelAllowed client "*") = true) :
    handleChat providers client req (Except.error msg) insertOk now nextID ledger =
      { outcome := ChatOutcome.execFailed ("CLI execution failed: " ++ msg)
      , ledger := if insertOk then
          ledger ++ [{ id := nextID, clientID := client.id, sessionID := none, timestamp := now
                     , provider := client.provider, model := resolveModel providers client req.model
                     , prompt := some (messagesToPrompt req.messages)
                     , promptTokens := 0, completionTokens := 0, totalTokens := 0, cost := 0
                     , responseTimeMs := 0, responseStatus := 500, errorMessage := some msg }]
          else ledger
      , attempted := [{ id := 0, clientID := client.id, sessionID := none, timestamp := now
                      , provider := client.provider, model := resolveModel providers client req.model
                      , prompt := some (messagesToPrompt req.messages)
                      , promptTokens := 0, completionTokens := 0, totalTokens := 0, cost := 0
                      , responseTimeMs := 0, responseStatus := 500, errorMessage := some msg }] } := by
  unfold handleChat
  have hm2 : (resolveModel providers client req.model == "") = false :=
    beq_eq_false_iff_ne.mpr hm
  have hgate : (!IsModelAllowed client (resolveModel providers client req.model) &&
                !IsModelAllowed client "*") = false := by
    cases h1 : IsModelAllowed client (resolveModel providers client req.model) with
    | true => simp
    | false =>
      cases h2 : IsModelAllowed client "*" with
      | true => simp
      | false => rw [h1, h2] at hal; simp at hal
  simp only [hm2, Bool.false_eq_true, if_false, hp, hav, hgate, Bool.not_true, if_true]

/-- A request that passes the model gate and whose Execute succeeds is
answered with the success payload whether or not the ledger insert
succeeds. -/
theorem handleChat_execOk (providers : List ProviderModel) (client : Client)
    (req : ChatRequest) (resp : ExecResponse) (insertOk : Bool) (now nextID : Int)
    (ledger : List UsageLog) (p : ProviderModel)
    (hm : resolveModel providers client req.model ≠ "")
    (hp : providers.find? (fun q => q.name == client.provider) = some p)
    (hav : p.available = true)
    (hal : (IsModelAllowed client (resolveModel providers client req.model) ||
            IsModelAllowed client "*") = true) :
    handleChat providers client req (Except.ok resp) insertOk now nextID ledger =
      { outcome := ChatOutcome.ok ("chatcmpl-" ++ toString (if insertOk then nextID else (0 : Int)))
          resp.model resp.content resp.promptTokens resp.completionTokens resp.totalTokens
          (calculateCost (resolveModel providers client req.model) resp.totalTokens)
      , ledger := if insertOk then
          ledger ++ [{ id := nextID, clientID := client.id, sessionID := some resp.sessionID
                     , timestamp := now, provider := client.provider, model := resp.model
                     , prompt := some (messagesToPrompt req.messages)
                     , promptTokens := resp.promptTokens, completionTokens := resp.completionTokens
                     , totalTokens := resp.totalTokens
                     , cost := calculateCost (resolveModel providers client req.model) resp.totalTokens
                     , responseTimeMs := 0, responseStatus := 200, errorMessage := none }]
          else ledger
      , attempted := [{ id := 0, clientID := client.id, sessionID := some resp.sessionID
                      , timestamp := now, provider := client.provider, model := resp.model
                      , prompt := some (messagesToPrompt req.messages)
                      , promptTokens := resp.promptTokens, completionTokens := resp.completionTokens
                      , totalTokens := resp.totalTokens
                      , cost := calculateCost (resolveModel providers client req.model) resp.totalTokens
                      , responseTimeMs := 0, responseStatus := 200, errorMessage := none }] } := by
  unfold handleChat
  have hm2 : (resolveModel providers client req.model == "") = false :=
    beq_eq_false_iff_ne.mpr hm
  have hgate : (!IsModelAllowed client (resolveModel providers client req.model) &&
                !IsModelAllowed client "*") = false := by
    cases h1 : IsModelAllowed client (resolveModel providers client req.model) with
    | true => simp
    | false =>
      cases h2 : IsModelAllowed client "*" with
      | true => simp
      | false => rw [h1, h2] at hal; simp at hal
  simp only [hm2, Bool.false_eq_true, if_false, hp, hav, hgate, Bool.not_true, if_true]

/-- On a successfully parsed allow-list, IsModelAllowed is membership or
wildcard. -/
theorem isModelAllowed_iff (client : Client) (model : String) (l : List String)
    (hparse : parseJSONStringArray client.allowedModels = some l) :
    IsModelAllowed client model = true ↔ model ∈ l ∨ "*" ∈ l := by
  unfold IsModelAllowed
  rw [hparse]
  simp only [List.any_eq_true, Bool.or_eq_true, beq_iff_eq]
  constructor
  · rintro ⟨am, hmem, ham | ham⟩
    · exact Or.inl (ham ▸ hmem)
    · exact Or.inr (ham ▸ hmem)
  · rintro (hmem | hmem)
    · exact ⟨model, hmem, Or.inl rfl⟩
    · exact ⟨"*", hmem, Or.inr rfl⟩

/-- On an unparsable allow-list, IsModelAllowed is uniformly false. -/
theorem isModelAllowed_parse_fail (client : Client) (model : String)
    (hparse : parseJSONStringArray client.allowedModels = none) :
    IsModelAllowed client model = false := by
  unfold IsModelAllowed
  rw [hparse]

/-- With a zero-limit limiter (zero rate, zero burst) every request in a
sequence is answered RateLimitExceeded and the limiter state never
changes. -/
theorem processRequests_limitZero (providers : List ProviderModel) (client : Client)
    (reqs : List (ChatRequest × Except String ExecResponse)) (now : Int) (st : GatewayState)
    (h : st.limiter = { limitIsZero := true, burst := 0, tokens := 0 }) :
    ∀ out ∈ (processRequests providers client reqs now st).1, out = ChatOutcome.rateLimited := by
  induction reqs generalizing st with
  | nil =>
    intro out hout
    simp [processRequests] at hout
  | cons head tail ih =>
    obtain ⟨req, exec⟩ := head
    intro out hout
    have hallow : st.limiter.allow = (false, st.limiter) := by
      rw [h]; rfl
    simp only [processRequests, processChatRequest, hallow] at hout
    simp only [List.mem_cons] at hout
    rcases hout with hout | hout
    · exact hout
    · exact ih { st with limiter := st.limiter } (by simpa using h) out (by simpa using hout)

/-- All eight working words of a hash state are 32-bit values. -/
def Hash8.Bounded (st : Hash8) : Prop :=
  st.a < 4294967296 ∧ st.b < 4294967296 ∧ st.c < 4294967296 ∧ st.d < 4294967296 ∧
  st.e < 4294967296 ∧ st.f < 4294967296 ∧ st.g < 4294967296 ∧ st.h < 4294967296

theorem w32_lt (n : Nat) : w32 n < 4294967296 :=
  Nat.mod_lt n (by decide)

theorem processBlock_bounded (st : Hash8) (block : List Nat) :
    (processBlock st block).Bounded := by
  unfold processBlock Hash8.Bounded
  exact ⟨w32_lt _, w32_lt _, w32_lt _, w32_lt _, w32_lt _, w32_lt _, w32_lt _, w32_lt _⟩

theorem foldl_processBlock_bounded (blocks : List (List Nat)) (st : Hash8)
    (h : st.Bounded) : (blocks.foldl processBlock st).Bounded := by
  induction blocks generalizing st with
  | nil => exact h
  | cons b rest ih =>
    rw [List.foldl_cons]
    exact ih (processBlock st b) (processBlock_bounded st b)

theorem initH_bounded : initH.Bounded := by
  unfold Hash8.Bounded initH
  refine ⟨?_, ?_, ?_, ?_, ?_, ?_, ?_, ?_⟩ <;> decide

theorem sha256state_bounded (msg : List Nat) : (sha256state msg).Bounded :=
  foldl_processBlock_bounded _ _ initH_bounded

theorem digestNat_lt (st : Hash8) (hb : st.Bounded) : digestNat st < 4294967296 ^ 8 := by
  obtain ⟨ha, hbb, hc, hd, he, hf, hg, hh⟩ := hb
  have step : ∀ x m y : Nat, x < m → y < 4294967296 →
      x * 4294967296 + y < m * 4294967296 := by
    intro x m y hx hy
    calc x * 4294967296 + y < x * 4294967296 + 4294967296 := by omega
      _ = (x + 1) * 4294967296 := by ring
      _ ≤ m * 4294967296 := Nat.mul_le_mul_right _ hx
  unfold digestNat
  have s2 := step _ _ _ ha hbb
  have s3 := step _ _ _ s2 hc
  have s4 := step _ _ _ s3 hd
  have s5 := step _ _ _ s4 he
  have s6 := step _ _ _ s5 hf
  have s7 := step _ _ _ s6 hg
  have s8 := step _ _ _ s7 hh
  calc ((((((st.a * 4294967296 + st.b) * 4294967296 + st.c) * 4294967296 + st.d) * 4294967296 +
          st.e) * 4294967296 + st.f) * 4294967296 + st.g) * 4294967296 + st.h <
      4294967296 * 4294967296 * 4294967296 * 4294967296 * 4294967296 * 4294967296 *
        4294967296 * 4294967296 := by
        calc ((((((st.a * 4294967296 + st.b) * 4294967296 + st.c) * 4294967296 + st.d) *
                4294967296 + st.e) * 4294967296 + st.f) * 4294967296 + st.g) * 4294967296 +
              st.h <
            ((((((4294967296 * 4294967296) * 4294967296) * 4294967296) * 4294967296) *
              4294967296) * 4294967296) * 4294967296 := s8
          _ = 4294967296 * 4294967296 * 4294967296 * 4294967296 * 4294967296 * 4294967296 *
                4294967296 * 4294967296 := by ring
    _ = 4294967296 ^ 8 := by ring

theorem stringDataEq {a b : String} (h : a.data = b.data) : a = b :=
  congrArg String.mk h

/-! ## Claims -/

/-- C4: ValidateAPIKeyFormat returns true exactly when the candidate
carries the fixed prefix bytes (and hence meets the minimum length), and
a credential failing the check is rejected identically for every
database — no lookup is consulted. -/
theorem c4_validate_shape :
    (∀ key : String, ValidateAPIKeyFormat key = true ↔
        ((strBytes key).take (strBytes APIKeyPrefix).length = strBytes APIKeyPrefix ∧
         (strBytes APIKeyPrefix).length ≤ (strBytes key).length)) ∧
    (∀ key : String, ValidateAPIKeyFormat key = false →
       ∀ (db1 db2 : List Client) (now1 now2 : Int),
         authenticateKey db1 now1 key = AuthResult.invalidKeyFormat ∧
         authenticateKey db1 now1 key = authenticateKey db2 now2 key) := by
  constructor
  · intro key
    unfold ValidateAPIKeyFormat
    by_cases hlt : (strBytes key).length < (strBytes APIKeyPrefix).length
    · rw [if_pos hlt]
      constructor
      · intro hfalse; simp at hfalse
      · rintro ⟨htake, hlen⟩; omega
    · rw [if_neg hlt, beq_iff_eq]
      exact ⟨fun h => ⟨h, Nat.le_of_not_lt hlt⟩, fun h => h.1⟩
  · intro key hbad db1 db2 now1 now2
    refine ⟨?_, ?_⟩ <;> simp [authenticateKey, hbad]

/-- C4 witness: a concrete malformed credential is refused without any
database access. -/
theorem c4_validate_shape_witness :
    ValidateAPIKeyFormat "bad" = false ∧
    authenticateKey [] 0 "bad" = AuthResult.invalidKeyFormat :=
  ⟨by decide, (c4_validate_shape.2 "bad" (by decide) [] [] 0 0).1⟩

/-- C5: a model is permitted iff it appears verbatim in the parsed
allow-list or the list contains the wildcard; a non-permitted model is
rejected with ModelNotAllowed, with no ledger write and no dependence on
the Execute outcome (so before provider dispatch). -/
theorem c5_model_allow_check :
    (∀ (client : Client) (model : String) (l : List String),
        parseJSONStringArray client.allowedModels = some l →
        (IsModelAllowed client model = true ↔ model ∈ l ∨ "*" ∈ l)) ∧
    (∀ (providers : List ProviderModel) (client : Client) (req : ChatRequest)
        (l : List String) (p : ProviderModel) (ex1 ex2 : Except String ExecResponse)
        (insertOk1 insertOk2 : Bool) (now nextID : Int) (ledger : List UsageLog),
        parseJSONStringArray client.allowedModels = some l →
        providers.find? (fun q => q.name == client.provider) = some p →
        p.available = true →
        resolveModel providers client req.model ≠ "" →
        resolveModel providers client req.model ∉ l →
        "*" ∉ l →
        handleChat providers client req ex1 insertOk1 now nextID ledger =
          { outcome := ChatOutcome.modelNotAllowed
              ("model " ++ resolveModel providers client req.model ++
               " is not allowed for this client")
          , ledger := ledger, attempted := [] } ∧
        handleChat providers client req ex1 insertOk1 now nextID ledger =
          handleChat providers client req ex2 insertOk2 now nextID ledger) := by
  constructor
  · exact isModelAllowed_iff
  · intro providers client req l p ex1 ex2 insertOk1 insertOk2 now nextID ledger
      hparse hp hav hm hnm hnw
    have hna : IsModelAllowed client (resolveModel providers client req.model) = false := by
      rw [Bool.eq_false_iff]
      intro htrue
      rcases (isModelAllowed_iff client _ l hparse).mp htrue with hin | hin
      · exact hnm hin
      · exact hnw hin
    have hnaw : IsModelAllowed client "*" = false := by
      rw [Bool.eq_false_iff]
      intro htrue
      rcases (isModelAllowed_iff client _ l hparse).mp htrue with hin | hin
      · exact hnw hin
      · exact hnw hin
    have e1 := handleChat_modelNotAllowed providers client req ex1 insertOk1 now nextID ledger p
      hm hp hav hna hnaw
    have e2 := handleChat_modelNotAllowed providers client req ex2 insertOk2 now nextID ledger p
      hm hp hav hna hnaw
    exact ⟨e1, e1.trans e2.symm⟩

def c5Client : Client :=
  { id := 1, name := "n", apiKeyHash := "h", provider := "copilot"
  , allowedModels := "[\"m1\"]", defaultModel := "", rateLimitPerMinute := 60
  , expiresAt := none, isActive := true }

def c5Providers : List ProviderModel :=
  [{ name := "copilot", available := true, supportedModels := ["m1"] }]

/-- C5 witness: with allow-list ["m1"], model m1 passes and model m2 is
rejected with ModelNotAllowed leaving the ledger untouched. -/
theorem c5_model_allow_check_witness :
    IsModelAllowed c5Client "m1" = true ∧
    handleChat c5Providers c5Client { model := "m2", messages := [] } (Except.error "boom")
        true 0 1 [] =
      { outcome := ChatOutcome.modelNotAllowed "model m2 is not allowed for this client"
      , ledger := [], attempted := [] } := by
  constructor
  · exact (c5_model_allow_check.1 c5Client "m1" ["m1"] (by decide)).mpr (Or.inl (by simp))
  · exact (c5_model_allow_check.2 c5Providers c5Client { model := "m2", messages := [] }
      ["m1"] { name := "copilot", available := true, supportedModels := ["m1"] }
      (Except.error "boom") (Except.error "boom") true true 0 1 []
      (by decide) (by decide) (by decide) (by decide) (by decide) (by decide)).1

/-- C6: the aggregate statistics are internally consistent with the raw
filtered rows: the per-provider counts and the per-model counts each sum
to total_requests, for every client and optional time range. -/
theorem c6_stats_consistent (logs : List UsageLog) (clientID : Int)
    (startTime endTime : Option Int) :
    ((GetUsageStats logs clientID startTime endTime).byProvider.map Prod.snd).sum =
      (GetUsageStats logs clientID startTime endTime).totalRequests ∧
    ((GetUsageStats logs clientID startTime endTime).byModel.map Prod.snd).sum =
      (GetUsageStats logs clientID startTime endTime).totalRequests := by
  unfold GetUsageStats
  exact ⟨by simp [groupCount_sum], by simp [groupCount_sum]⟩

/-- C8 counterexample: EstimateTokens divides the UTF-8 BYTE count by 4,
not the character count — on a four-character non-ASCII text the two
disagree. -/
theorem c8_counterexample : ¬ ∀ text : String, EstimateTokens text = text.length / 4 := by
  intro h
  have hx := h "éééé"
  revert hx
  decide

/-- C8 amended: EstimateTokens is the UTF-8 byte count divided by 4
rounded down (equal to the character count divided by 4 on ASCII text),
and Execute applies it independently to prompt and content with the
total equal to their sum. -/
theorem c8_token_estimation :
    (∀ text : String, EstimateTokens text = (strBytes text).length / 4) ∧
    (∀ text : String, (∀ c ∈ text.data, c.toNat < 128) →
        EstimateTokens text = text.length / 4) ∧
    (∀ (req : ExecRequest) (raw : String),
        (copilotExecute req raw).promptTokens = (EstimateTokens req.prompt : Int) ∧
        (copilotExecute req raw).completionTokens =
          (EstimateTokens (copilotExecute req raw).content : Int) ∧
        (copilotExecute req raw).totalTokens =
          (copilotExecute req raw).promptTokens + (copilotExecute req raw).completionTokens) := by
  refine ⟨fun _ => rfl, ?_, fun req raw => ⟨rfl, rfl, rfl⟩⟩
  intro text h
  unfold EstimateTokens strBytes
  rw [strBytes_length_of_ascii text.data h]
  rfl

/-- C8 witness: on a concrete ASCII text the heuristic equals characters
divided by 4, and a concrete Execute reports the sum as total. -/
theorem c8_token_estimation_witness :
    EstimateTokens "abcdefgh" = "abcdefgh".length / 4 ∧
    (copilotExecute { prompt := "abcdefgh", model := "m" } "hi").totalTokens =
      (copilotExecute { prompt := "abcdefgh", model := "m" } "hi").promptTokens +
      (copilotExecute { prompt := "abcdefgh", model := "m" } "hi").completionTokens :=
  ⟨c8_token_estimation.2.1 "abcdefgh" (by decide),
   (c8_token_estimation.2.2 { prompt := "abcdefgh", model := "m" } "hi").2.2⟩

/-- C9 counterexample: the prompt is not newline-JOINED — each user
message is followed by a newline, so a single user message "a" yields
"a\n", not "a". -/
theorem c9_counterexample :
    ¬ ∀ msgs : List Message, messagesToPrompt msgs =
        String.intercalate "\n"
          ((msgs.filter (fun m => m.role == "user")).map (fun m => m.content)) := by
  intro h
  have hx := h [{ role := "user", content := "a" }]
  revert hx
  decide

/-- C9 amended: the prompt is the concatenation, in original order, of
content-plus-newline for exactly the messages whose role is "user";
other roles are ignored. -/
theorem c9_prompt_builder (msgs : List Message) :
    messagesToPrompt msgs =
      String.join ((msgs.filter (fun m => m.role == "user")).map (fun m => m.content ++ "\n")) := by
  have aux : ∀ (ms : List Message) (acc : String),
      (ms.foldl (fun prompt msg =>
          if msg.role == "user" then prompt ++ msg.content ++ "\n" else prompt) acc).data =
      acc.data ++
        (((ms.filter (fun m => m.role == "user")).map (fun m => m.content ++ "\n")).map
          String.data).flatten := by
    intro ms
    induction ms with
    | nil => intro acc; simp
    | cons m rest ih =>
      intro acc
      by_cases hu : (m.role == "user") = true
      · simp only [List.foldl_cons, hu, if_true, List.filter_cons, ih]
        simp [hu]
      · simp only [List.foldl_cons, hu, List.filter_cons, ih]
        simp [hu]
  apply stringDataEq
  unfold messagesToPrompt
  rw [aux]
  simp

/-- C10: an unparsable allowed-models value makes IsModelAllowed false
for every model including the wildcard, so a request that reaches the
model gate is rejected with ModelNotAllowed rather than an internal
error. -/
theorem c10_unparsable_allowlist :
    (∀ (client : Client) (model : String),
        parseJSONStringArray client.allowedModels = none →
        IsModelAllowed client model = false) ∧
    (∀ (providers : List ProviderModel) (client : Client) (req : ChatRequest)
        (p : ProviderModel) (ex : Except String ExecResponse) (insertOk : Bool)
        (now nextID : Int) (ledger : List UsageLog),
        parseJSONStringArray client.allowedModels = none →
        providers.find? (fun q => q.name == client.provider) = some p →
        p.available = true →
        resolveModel providers client req.model ≠ "" →
        handleChat providers client req ex insertOk now nextID ledger =
          { outcome := ChatOutcome.modelNotAllowed
              ("model " ++ resolveModel providers client req.model ++
               " is not allowed for this client")
          , ledger := ledger, attempted := [] }) := by
  constructor
  · intro client model hparse
    exact isModelAllowed_parse_fail client model hparse
  · intro providers client req p ex insertOk now nextID ledger hparse hp hav hm
    exact handleChat_modelNotAllowed providers client req ex insertOk now nextID ledger p
      hm hp hav (isModelAllowed_parse_fail client _ hparse)
      (isModelAllowed_parse_fail client "*" hparse)

def c10Client : Client :=
  { id := 2, name := "n", apiKeyHash := "h", provider := "copilot"
  , allowedModels := "not json", defaultModel := "", rateLimitPerMinute := 60
  , expiresAt := none, isActive := true }

def c1Client : Client :=
  { id := 3, name := "z", apiKeyHash := "h", provider := "copilot"
  , allowedModels := "[\"*\"]", defaultModel := "m1", rateLimitPerMinute := 0
  , expiresAt := none, isActive := true }

/-- C1 counterexample: a client with rate limit 0 gets a limiter with
zero rate and zero burst (x/time/rate: a zero limit allows no events),
so even its very first, fully well-formed request is rejected on rate
grounds — refuting "every request passes". -/
theorem c1_counterexample :
    c1Client.rateLimitPerMinute = 0 ∧
    (processChatRequest c5Providers c1Client { model := "m1", messages := [] }
        (Except.ok (copilotExecute { prompt := "", model := "m1" } "hi")) true 0
        (initState c1Client)).1 = ChatOutcome.rateLimited := by
  constructor
  · rfl
  · decide

/-- C1 amended: for every client whose rate limit is 0, admission
rejects every request of every sequence with RateLimitExceeded. -/
theorem c1_zero_limit_rejects_all (client : Client) (h : client.rateLimitPerMinute = 0)
    (providers : List ProviderModel) (reqs : List (ChatRequest × Except String ExecResponse))
    (now : Int) :
    ∀ out ∈ (processRequests providers client reqs now (initState client)).1,
      out = ChatOutcome.rateLimited := by
  apply processRequests_limitZero
  show (initState client).limiter = _
  unfold initState newLimiter
  rw [h]
  rfl

/-- C1 witness: both requests of a concrete two-request sequence for a
zero-limit client are rate-rejected. -/
theorem c1_zero_limit_rejects_all_witness :
    c1Client.rateLimitPerMinute = 0 ∧
    (processRequests c5Providers c1Client
        [({ model := "m1", messages := [] }, Except.error "e"),
         ({ model := "m1", messages := [] }, Except.error "e")] 0 (initState c1Client)).1.getD 1
      (ChatOutcome.execFailed "") = ChatOutcome.rateLimited :=
  ⟨rfl,
   c1_zero_limit_rejects_all c1Client rfl c5Providers
     [({ model := "m1", messages := [] }, Except.error "e"),
      ({ model := "m1", messages := [] }, Except.error "e")] 0 _ (by decide)⟩

def c2Client : Client :=
  { id := 7, name := "c", apiKeyHash := "h", provider := "copilot"
  , allowedModels := "[\"m1\"]", defaultModel := "", rateLimitPerMinute := 2
  , expiresAt := none, isActive := true }

def c2Providers : List ProviderModel :=
  [{ name := "copilot", available := true, supportedModels := ["m1", "m2"] }]

def c2Req (m : String) : ChatRequest :=
  { model := m, messages := [{ role := "user", content := "hello" }] }

def c2Exec : Except String ExecResponse :=
  Except.ok (copilotExecute { prompt := "hello\n", model := "m1" } "hi")

/-- The end-to-end scenario of the spec: limit 2, allow-list ["m1"], no
default model, immediate requests for models m1, m2, m1, m1, provider
available and execution succeeding. -/
def c2Run : List ChatOutcome × GatewayState :=
  processRequests c2Providers c2Client
    [(c2Req "m1", c2Exec), (c2Req "m2", c2Exec), (c2Req "m1", c2Exec), (c2Req "m1", c2Exec)]
    0 (initState c2Client)

/-- C2 counterexample: the claimed outcome sequence does not happen.
The RateLimit middleware runs before the handler's model check, so the
rejected m2 request consumes the second token: request 3 is answered
RateLimitExceeded instead of being admitted, and the final aggregate
shows 1 request, not 2. -/
theorem c2_counterexample :
    ¬ ((c2Run.1.getD 0 ChatOutcome.rateLimited).isSuccess = true ∧
       (c2Run.1.getD 1 ChatOutcome.rateLimited).isModelNotAllowed = true ∧
       (c2Run.1.getD 2 ChatOutcome.rateLimited).isSuccess = true ∧
       c2Run.1.getD 3 ChatOutcome.rateLimited = ChatOutcome.rateLimited ∧
       (GetUsageStats c2Run.2.ledger c2Client.id none none).totalRequests = 2) := by
  decide

/-- C2 amended: the actual run is success, ModelNotAllowed,
RateLimitExceeded, RateLimitExceeded; exactly the one successful request
is in the ledger and the final aggregate shows total_requests = 1. -/
theorem c2_actual_run :
    c2Run.1 = [ChatOutcome.ok "chatcmpl-1" "m1" "hi" 1 0 1 (calculateCost "m1" 1),
               ChatOutcome.modelNotAllowed "model m2 is not allowed for this client",
               ChatOutcome.rateLimited, ChatOutcome.rateLimited] ∧
    calculateCost "m1" 1 = 1 / 100000 ∧
    c2Run.2.ledger.map (fun e => (e.responseStatus, e.model, e.clientID)) = [(200, "m1", 7)] ∧
    (GetUsageStats c2Run.2.ledger c2Client.id none none).totalRequests = 1 := by
  refine ⟨rfl, ?_, rfl, by decide⟩
  unfold calculateCost
  norm_num
  simp

/-- C3 counterexample: equal fingerprints do not imply equal secrets.
The digest is one of at most 2^256 values while there are infinitely
many secrets, so HashAPIKey cannot be injective (the "iff" direction of
the claim is a computational-hardness statement, not a mathematical
identity). -/
theorem c3_counterexample :
    ¬ ∀ s1 s2 : String, HashAPIKey s1 = HashAPIKey s2 ↔ s1 = s2 := by
  intro hcl
  obtain ⟨x, y, hne, heq⟩ := Finite.exists_ne_map_eq_of_infinite
    (fun s : String =>
      (⟨digestNat (sha256state (strBytes s)),
        digestNat_lt _ (sha256state_bounded _)⟩ : Fin (4294967296 ^ 8)))
  have hd : digestNat (sha256state (strBytes x)) = digestNat (sha256state (strBytes y)) :=
    congrArg Fin.val heq
  have hcoll : HashAPIKey x = HashAPIKey y := by
    unfold HashAPIKey sha256
    rw [hd]
  exact hne ((hcl x y).mp hcoll)

/-- C3 amended: fingerprinting is deterministic (equal secrets yield
equal fingerprints), and authentication consults the presented secret
only through its shape check and its fingerprint: the lookup key is the
fingerprint and the raw secret is never compared. -/
theorem c3_fingerprint_properties :
    (∀ s1 s2 : String, s1 = s2 → HashAPIKey s1 = HashAPIKey s2) ∧
    (∀ (db : List Client) (now : Int) (key : String),
        authenticateKey db now key =
          authByFingerprint db now (ValidateAPIKeyFormat key) (HashAPIKey key)) ∧
    (∀ (db : List Client) (now : Int) (k1 k2 : String),
        ValidateAPIKeyFormat k1 = ValidateAPIKeyFormat k2 →
        HashAPIKey k1 = HashAPIKey k2 →
        authenticateKey db now k1 = authenticateKey db now k2) := by
  refine ⟨fun s1 s2 h => congrArg HashAPIKey h, fun db now key => rfl, ?_⟩
  intro db now k1 k2 hv hh
  have e1 : authenticateKey db now k1 =
      authByFingerprint db now (ValidateAPIKeyFormat k1) (HashAPIKey k1) := rfl
  rw [e1, hv, hh]
  rfl

/-- C3 witness: determinism and fingerprint-only lookup applied at a
concrete secret and an empty client table. -/
theorem c3_fingerprint_properties_witness :
    HashAPIKey "aics_k" = HashAPIKey "aics_k" ∧
    authenticateKey [] 0 "aics_k" = authenticateKey [] 0 "aics_k" :=
  ⟨c3_fingerprint_properties.1 "aics_k" "aics_k" rfl,
   c3_fingerprint_properties.2.2 [] 0 "aics_k" "aics_k" rfl rfl⟩

/-- C7: when Execute fails, the handler attempts exactly one ledger
insert carrying the error message, error status 500 and zero token/cost
fields; the insert lands when the store accepts it and is dropped when
it fails, but the outcome reported to the caller is the same either
way; and a successful execution returns the success response whether or
not its ledger insert succeeds. -/
theorem c7_failure_logging (providers : List ProviderModel) (client : Client)
    (req : ChatRequest) (msg : String) (now nextID : Int) (ledger : List UsageLog)
    (p : ProviderModel)
    (hm : resolveModel providers client req.model ≠ "")
    (hp : providers.find? (fun q => q.name == client.provider) = some p)
    (hav : p.available = true)
    (hal : (IsModelAllowed client (resolveModel providers client req.model) ||
            IsModelAllowed client "*") = true) :
    (∀ insertOk,
       (handleChat providers client req (Except.error msg) insertOk now nextID ledger).attempted =
         [{ id := 0, clientID := client.id, sessionID := none, timestamp := now
          , provider := client.provider, model := resolveModel providers client req.model
          , prompt := some (messagesToPrompt req.messages)
          , promptTokens := 0, completionTokens := 0, totalTokens := 0, cost := 0
          , responseTimeMs := 0, responseStatus := 500, errorMessage := some msg }]) ∧
    (handleChat providers client req (Except.error msg) true now nextID ledger).ledger =
      ledger ++ [{ id := nextID, clientID := client.id, sessionID := none, timestamp := now
                 , provider := client.provider, model := resolveModel providers client req.model
                 , prompt := some (messagesToPrompt req.messages)
                 , promptTokens := 0, completionTokens := 0, totalTokens := 0, cost := 0
                 , responseTimeMs := 0, responseStatus := 500, errorMessage := some msg }] ∧
    (handleChat providers client req (Except.error msg) false now nextID ledger).ledger =
      ledger ∧
    (∀ insertOk1 insertOk2,
       (handleChat providers client req (Except.error msg) insertOk1 now nextID ledger).outcome =
       (handleChat providers client req (Except.error msg) insertOk2 now nextID ledger).outcome) ∧
    (∀ (resp : ExecResponse) (insertOk : Bool),
       ((handleChat providers client req (Except.ok resp) insertOk now nextID
          ledger).outcome).isSuccess = true) := by
  refine ⟨?_, ?_, ?_, ?_, ?_⟩
  · intro insertOk
    rw [handleChat_execError providers client req msg insertOk now nextID ledger p hm hp hav hal]
  · rw [handleChat_execError providers client req msg true now nextID ledger p hm hp hav hal]
    rfl
  · rw [handleChat_execError providers client req msg false now nextID ledger p hm hp hav hal]
    rfl
  · intro insertOk1 insertOk2
    rw [handleChat_execError providers client req msg insertOk1 now nextID ledger p hm hp hav hal,
        handleChat_execError providers client req msg insertOk2 now nextID ledger p hm hp hav hal]
  · intro resp insertOk
    rw [handleChat_execOk providers client req resp insertOk now nextID ledger p hm hp hav hal]
    rfl

/-- C7 witness: the error-path ledger attempt at a concrete failed
request, and the success outcome surviving a failed insert. -/
theorem c7_failure_logging_witness :
    (handleChat c5Providers c5Client { model := "m1", messages := [] } (Except.error "boom")
        true 0 1 []).attempted =
      [{ id := 0, clientID := 1, sessionID := none, timestamp := 0, provider := "copilot"
       , model := "m1", prompt := some "", promptTokens := 0, completionTokens := 0
       , totalTokens := 0, cost := 0, responseTimeMs := 0, responseStatus := 500
       , errorMessage := some "boom" }] ∧
    ((handleChat c5Providers c5Client { model := "m1", messages := [] }
        (Except.ok (copilotExecute { prompt := "", model := "m1" } "hi")) false 0 1
        []).outcome).isSuccess = true := by
  have h := c7_failure_logging c5Providers c5Client { model := "m1", messages := [] } "boom"
    0 1 [] { name := "copilot", available := true, supportedModels := ["m1"] }
    (by decide) (by decide) (by decide) (by decide)
  exact ⟨h.1 true, h.2.2.2.2 (copilotExecute { prompt := "", model := "m1" } "hi") false⟩

/-- C10 witness: a client whose stored allow-list is not JSON gets even
the wildcard refused, and a concrete request is answered
ModelNotAllowed. -/
theorem c10_unparsable_allowlist_witness :
    IsModelAllowed c10Client "*" = false ∧
    handleChat c5Providers c10Client { model := "m1", messages := [] } (Except.error "boom")
        true 0 1 [] =
      { outcome := ChatOutcome.modelNotAllowed "model m1 is not allowed for this client"
      , ledger := [], attempted := [] } :=
  ⟨c10_unparsable_allowlist.1 c10Client "*" (by decide),
   c10_unparsable_allowlist.2 c5Providers c10Client { model := "m1", messages := [] }
     { name := "copilot", available := true, supportedModels := ["m1"] }
     (Except.error "boom") true 0 1 [] (by decide) (by decide) (by decide) (by decide)⟩

end AiCliServer

